import Mathlib

/-!
Shallow embedding of `src/06-objects-tasks.js`: the `Rectangle` helper, the
JSON wrapper `fromJSON`, and the CSS selector builder
(`SimpleSelector`, `CombinedSelector`, `cssSelectorBuilder`), together with
theorems settling the specification claims about them.

JavaScript conventions used by the embedding:
  - a thrown `Error` is modelled as an `Except.error` carrying the message;
    for the selector methods the error also carries the state of the object
    at the moment of the throw, so that atomicity is an actual statement;
  - nullable string fields (`this.el = null` in the constructor) are
    `Option String`; JavaScript truthiness of such a field (`if (this.el)`)
    is `truthy`: `null` and the empty string are falsy;
  - `Array.prototype.push` is list append, `Array.prototype.join` is
    `joinSep`, a template literal is string concatenation.
-/

/-- A JavaScript exception value. `error` is `new Error(msg)` as thrown by
the selector methods; `parseError` is the `SyntaxError` thrown by the
built-in `JSON.parse`; `typeError` is a `TypeError` thrown by a built-in. -/
inductive JSError where
  | error (msg : String)
  | parseError (msg : String)
  | typeError (msg : String)
deriving DecidableEq

/-- What a `SimpleSelector` method returns on success: `sel` models
`return this` (the selector instance, chainable), `raw v` models returning
the bare string `v` (as `element` does with `return el`). -/
inductive ChainRet where
  | sel
  | raw (v : String)
deriving DecidableEq

/-- State of a `SimpleSelector` instance: the fields initialised in the
constructor (`el`, `elId`, `classes`, `attribute`, `pseudoClassEl`,
`pseudoElementEl`). -/
structure SimpleSelector where
  el : Option String
  elId : Option String
  classes : List String
  «attribute» : Option String
  pseudoClassEl : List String
  pseudoElementEl : List String
deriving DecidableEq

/-- Models `new SimpleSelector()`: every field `null` or an empty array. -/
def SimpleSelector.new : SimpleSelector :=
  ⟨none, none, [], none, [], []⟩

/-- JavaScript truthiness of a nullable string field: `null` and `""` are
falsy, every other string is truthy. -/
def truthy : Option String → Bool
  | none => false
  | some s => !(s == "")

/-- The order-violation message thrown by the selector methods
(source lines 133, 145, 156, 164, 172). -/
def orderMsg : String :=
  "Selector parts should be arranged in the following order: element, id, class, attribute, pseudo-class, pseudo-element"

/-- The duplicate-part message thrown by the selector methods
(source lines 136, 148, 180); the source spells it with "then". -/
def dupMsg : String :=
  "Element, id and pseudo-element should not occur more then one time inside the selector"

/-- Result of a `SimpleSelector` method call: on error, the exception and
the state of the object when it was thrown; on success, the updated state
and the returned value. -/
abbrev MethodRes := Except (JSError × SimpleSelector) (SimpleSelector × ChainRet)

/-- Models `Array.prototype.join(sep)` on an array of strings. -/
def joinSep (sep : String) : List String → String
  | [] => ""
  | [x] => x
  | x :: y :: xs => x ++ sep ++ joinSep sep (y :: xs)

/-- Models `SimpleSelector.prototype.element`: order check over every later
category, then the duplicate check on `el`, then `this.el = el; return el`
— note the raw string, not `this`, is returned. -/
def SimpleSelector.element (self : SimpleSelector) (el : String) : MethodRes :=
  if truthy self.elId || !self.classes.isEmpty || truthy self.«attribute»
      || !self.pseudoClassEl.isEmpty || !self.pseudoElementEl.isEmpty then
    .error (.error orderMsg, self)
  else if truthy self.el then
    .error (.error dupMsg, self)
  else
    .ok ({ self with el := some el }, .raw el)

/-- Models `SimpleSelector.prototype.id`: order check over the categories after
id, then the duplicate check on `elId`, then `this.elId = val; return this`. -/
def SimpleSelector.id (self : SimpleSelector) (val : String) : MethodRes :=
  if !self.classes.isEmpty || truthy self.«attribute»
      || !self.pseudoClassEl.isEmpty || !self.pseudoElementEl.isEmpty then
    .error (.error orderMsg, self)
  else if truthy self.elId then
    .error (.error dupMsg, self)
  else
    .ok ({ self with elId := some val }, .sel)

/-- Models `SimpleSelector.prototype.class(...vals)`: order check over the
categories after class, then `this.classes.push(...vals); return this`.
There is no duplicate check. -/
def SimpleSelector.«class» (self : SimpleSelector) (vals : List String) : MethodRes :=
  if truthy self.«attribute» || !self.pseudoClassEl.isEmpty
      || !self.pseudoElementEl.isEmpty then
    .error (.error orderMsg, self)
  else
    .ok ({ self with classes := self.classes ++ vals }, .sel)

/-- Models `SimpleSelector.prototype.attr`: order check over the categories after
attribute, then `this.attribute = value; return this`. There is no
duplicate check: a second call overwrites the field. -/
def SimpleSelector.attr (self : SimpleSelector) (value : String) : MethodRes :=
  if !self.pseudoClassEl.isEmpty || !self.pseudoElementEl.isEmpty then
    .error (.error orderMsg, self)
  else
    .ok ({ self with «attribute» := some value }, .sel)

/-- Models `SimpleSelector.prototype.pseudoClass(...values)`: order check against
pseudo-element, then `this.pseudoClassEl.push(...values); return this`. -/
def SimpleSelector.pseudoClass (self : SimpleSelector) (values : List String) : MethodRes :=
  if !self.pseudoElementEl.isEmpty then
    .error (.error orderMsg, self)
  else
    .ok ({ self with pseudoClassEl := self.pseudoClassEl ++ values }, .sel)

/-- Models `SimpleSelector.prototype.pseudoElement`: duplicate check on the
`pseudoElementEl` array (throwing the duplicate message), then
`this.pseudoElementEl.push(value); return this`. -/
def SimpleSelector.pseudoElement (self : SimpleSelector) (value : String) : MethodRes :=
  if !self.pseudoElementEl.isEmpty then
    .error (.error dupMsg, self)
  else
    .ok ({ self with pseudoElementEl := self.pseudoElementEl ++ [value] }, .sel)

/-- Models `SimpleSelector.prototype.stringify`: builds `output` by
appending, for each truthy or non-empty field in category order, the
segment the source emits: the element name, hash plus the id, a dot plus
the classes joined by dots, the attribute in square brackets, a colon plus
the pseudo-classes joined by colons, a double colon plus the
pseudo-elements joined by double colons. -/
def SimpleSelector.stringify (self : SimpleSelector) : String :=
  let output := ""
  let output := if truthy self.el then output ++ self.el.getD "" else output
  let output := if truthy self.elId then output ++ "#" ++ self.elId.getD "" else output
  let output := if !self.classes.isEmpty then
    output ++ "." ++ joinSep "." self.classes else output
  let output := if truthy self.«attribute» then
    output ++ "[" ++ self.«attribute».getD "" ++ "]" else output
  let output := if !self.pseudoClassEl.isEmpty then
    output ++ ":" ++ joinSep ":" self.pseudoClassEl else output
  let output := if !self.pseudoElementEl.isEmpty then
    output ++ "::" ++ joinSep "::" self.pseudoElementEl else output
  output

/-- A built selector value: either a `SimpleSelector` instance or a
`CombinedSelector` holding two child selectors and the combinator string. -/
inductive Selector where
  | simple (s : SimpleSelector)
  | combined (s1 : Selector) (sep : String) (s2 : Selector)

/-- Render a selector value; the combined case is
`CombinedSelector.prototype.stringify`, the template literal
`s1.stringify() space sep space s2.stringify()`. -/
def Selector.stringify : Selector → String
  | .simple s => s.stringify
  | .combined s1 sep s2 => s1.stringify ++ " " ++ sep ++ " " ++ s2.stringify

/-- Models `cssSelectorBuilder.element`: creates a fresh `SimpleSelector` and
assigns `s.el = value` directly (no method call), returning the instance. -/
def cssSelectorBuilder.element (value : String) : SimpleSelector :=
  { SimpleSelector.new with el := some value }

/-- Models `cssSelectorBuilder.id`: `new SimpleSelector().id(value)`. -/
def cssSelectorBuilder.id (value : String) : MethodRes :=
  SimpleSelector.new.id value

/-- Models `cssSelectorBuilder.class`: `new SimpleSelector().class(value)`. -/
def cssSelectorBuilder.«class» (value : String) : MethodRes :=
  SimpleSelector.new.«class» [value]

/-- Models `cssSelectorBuilder.attr`: `new SimpleSelector().attr(value)`. -/
def cssSelectorBuilder.attr (value : String) : MethodRes :=
  SimpleSelector.new.attr value

/-- Models `cssSelectorBuilder.pseudoClass`: `new SimpleSelector().pseudoClass(value)`. -/
def cssSelectorBuilder.pseudoClass (value : String) : MethodRes :=
  SimpleSelector.new.pseudoClass [value]

/-- Models `cssSelectorBuilder.pseudoElement`: `new SimpleSelector().pseudoElement(value)`. -/
def cssSelectorBuilder.pseudoElement (value : String) : MethodRes :=
  SimpleSelector.new.pseudoElement value

/-- Models `cssSelectorBuilder.combine`: wraps the two selectors and the
combinator, verbatim, in a `CombinedSelector`. -/
def cssSelectorBuilder.combine (selector1 : Selector) (combinator : String)
    (selector2 : Selector) : Selector :=
  .combined selector1 combinator selector2

/-- One call in a builder chain, with its string argument; the facade and
the instance methods each take one value per call. -/
inductive BuildCall where
  | element (v : String)
  | id (v : String)
  | «class» (v : String)
  | attr (v : String)
  | pseudoClass (v : String)
  | pseudoElement (v : String)
deriving DecidableEq

/-- Dispatch one chain call to the corresponding `SimpleSelector` method. -/
def SimpleSelector.applyCall (s : SimpleSelector) : BuildCall → MethodRes
  | .element v => s.element v
  | .id v => s.id v
  | .«class» v => s.«class» [v]
  | .attr v => s.attr v
  | .pseudoClass v => s.pseudoClass [v]
  | .pseudoElement v => s.pseudoElement v

/-- Dispatch the first call of a chain to the facade `cssSelectorBuilder`. -/
def cssSelectorBuilder.applyFirst : BuildCall → MethodRes
  | .element v => .ok (cssSelectorBuilder.element v, .sel)
  | .id v => cssSelectorBuilder.id v
  | .«class» v => cssSelectorBuilder.«class» v
  | .attr v => cssSelectorBuilder.attr v
  | .pseudoClass v => cssSelectorBuilder.pseudoClass v
  | .pseudoElement v => cssSelectorBuilder.pseudoElement v

/-- Run the remaining calls of a chain on the value the previous call
returned. When the previous call returned the bare string (`.raw`), a
further method call is a `TypeError` (a string has none of these methods);
the final value of the chain is either the selector (`Sum.inl`) or that
bare string (`Sum.inr`). -/
def runChainFrom (s : SimpleSelector) (r : ChainRet) :
    List BuildCall → Except JSError (SimpleSelector ⊕ String)
  | [] =>
    match r with
    | .sel => .ok (.inl s)
    | .raw v => .ok (.inr v)
  | c :: cs =>
    match r with
    | .raw _ => .error (.typeError "not a function")
    | .sel =>
      match s.applyCall c with
      | .error (e, _) => .error e
      | .ok (s', r') => runChainFrom s' r' cs

/-- Run a whole builder chain: the first call on the facade, the rest on
the value each call returned. -/
def runChain (c : BuildCall) (cs : List BuildCall) :
    Except JSError (SimpleSelector ⊕ String) :=
  match cssSelectorBuilder.applyFirst c with
  | .error (e, _) => .error e
  | .ok (s, r) => runChainFrom s r cs

/-- The render algorithm exactly as the specification states it for a
simple selector: concatenate, in category order, the element name with no
marker, `#` plus the id name if present, `.` plus the class names joined
by `.`, the attribute expression in square brackets if present, `:` plus
the pseudo-class names joined by `:`, and `::` plus the pseudo-element
name if present. Presence of an optional part follows the builder
interface, under which a field holding the empty string behaves as absent. -/
def renderSpec (s : SimpleSelector) : String :=
  String.join [
    (if truthy s.el then s.el.getD "" else ""),
    (if truthy s.elId then "#" ++ s.elId.getD "" else ""),
    (if s.classes.isEmpty then "" else "." ++ joinSep "." s.classes),
    (if truthy s.«attribute» then "[" ++ s.«attribute».getD "" ++ "]" else ""),
    (if s.pseudoClassEl.isEmpty then "" else ":" ++ joinSep ":" s.pseudoClassEl),
    (match s.pseudoElementEl with
      | [] => ""
      | e :: _ => "::" ++ e)]

lemma stringify_eq_renderSpec (s : SimpleSelector)
    (h : s.pseudoElementEl.length ≤ 1) : s.stringify = renderSpec s := by
  obtain ⟨el, elId, classes, attr, pcs, pes⟩ := s
  have hpes : pes = [] ∨ ∃ e, pes = [e] := by
    match pes with
    | [] => exact Or.inl rfl
    | [e] => exact Or.inr ⟨e, rfl⟩
    | a :: b :: t => simp at h
  simp only [SimpleSelector.stringify, renderSpec, String.join]
  rcases hpes with hp | ⟨e, hp⟩ <;> subst hp <;>
    by_cases h1 : truthy el <;> by_cases h2 : truthy elId <;>
    by_cases h3 : classes.isEmpty <;> by_cases h4 : truthy attr <;>
    by_cases h5 : pcs.isEmpty <;>
    simp [h1, h2, h3, h4, h5, joinSep, String.append_assoc] <;> rfl

lemma applyCall_pe_length {s s' : SimpleSelector} {c : BuildCall} {r : ChainRet}
    (hs : s.pseudoElementEl.length ≤ 1)
    (h : s.applyCall c = .ok (s', r)) : s'.pseudoElementEl.length ≤ 1 := by
  cases c with
  | element v =>
    simp only [SimpleSelector.applyCall, SimpleSelector.element] at h
    split at h
    · exact absurd h (by simp)
    · split at h
      · exact absurd h (by simp)
      · simp only [Except.ok.injEq, Prod.mk.injEq] at h
        obtain ⟨h1, -⟩ := h
        subst h1
        simpa using hs
  | id v =>
    simp only [SimpleSelector.applyCall, SimpleSelector.id] at h
    split at h
    · exact absurd h (by simp)
    · split at h
      · exact absurd h (by simp)
      · simp only [Except.ok.injEq, Prod.mk.injEq] at h
        obtain ⟨h1, -⟩ := h
        subst h1
        simpa using hs
  | «class» v =>
    simp only [SimpleSelector.applyCall, SimpleSelector.«class»] at h
    split at h
    · exact absurd h (by simp)
    · simp only [Except.ok.injEq, Prod.mk.injEq] at h
      obtain ⟨h1, -⟩ := h
      subst h1
      simpa using hs
  | attr v =>
    simp only [SimpleSelector.applyCall, SimpleSelector.attr] at h
    split at h
    · exact absurd h (by simp)
    · simp only [Except.ok.injEq, Prod.mk.injEq] at h
      obtain ⟨h1, -⟩ := h
      subst h1
      simpa using hs
  | pseudoClass v =>
    simp only [SimpleSelector.applyCall, SimpleSelector.pseudoClass] at h
    split at h
    · exact absurd h (by simp)
    · simp only [Except.ok.injEq, Prod.mk.injEq] at h
      obtain ⟨h1, -⟩ := h
      subst h1
      simpa using hs
  | pseudoElement v =>
    simp only [SimpleSelector.applyCall, SimpleSelector.pseudoElement] at h
    split at h
    · exact absurd h (by simp)
    · simp only [Except.ok.injEq, Prod.mk.injEq] at h
      obtain ⟨h1, -⟩ := h
      subst h1
      rename_i hpe
      have : s.pseudoElementEl = [] := by
        cases hlist : s.pseudoElementEl with
        | nil => rfl
        | cons a t => rw [hlist] at hpe; simp at hpe
      simp [this]

lemma runChainFrom_pe_length :
    ∀ (cs : List BuildCall) (s : SimpleSelector) (r : ChainRet) (s' : SimpleSelector),
      s.pseudoElementEl.length ≤ 1 →
      runChainFrom s r cs = .ok (.inl s') → s'.pseudoElementEl.length ≤ 1 := by
  intro cs
  induction cs with
  | nil =>
    intro s r s' hs h
    cases r <;> simp [runChainFrom] at h
    exact h ▸ hs
  | cons c cs ih =>
    intro s r s' hs h
    cases r with
    | raw v => simp [runChainFrom] at h
    | sel =>
      simp only [runChainFrom] at h
      cases hac : s.applyCall c with
      | error e => rw [hac] at h; simp at h
      | ok p =>
        obtain ⟨s1, r1⟩ := p
        rw [hac] at h
        exact ih s1 r1 s' (applyCall_pe_length hs hac) h

lemma runChain_pe_length {c : BuildCall} {cs : List BuildCall} {s : SimpleSelector}
    (h : runChain c cs = .ok (.inl s)) : s.pseudoElementEl.length ≤ 1 := by
  unfold runChain at h
  cases hfc : cssSelectorBuilder.applyFirst c with
  | error e => rw [hfc] at h; simp at h
  | ok p =>
    obtain ⟨s0, r0⟩ := p
    rw [hfc] at h
    refine runChainFrom_pe_length cs s0 r0 s ?_ h
    cases c <;>
      simp only [cssSelectorBuilder.applyFirst, cssSelectorBuilder.element,
        cssSelectorBuilder.id, cssSelectorBuilder.«class», cssSelectorBuilder.attr,
        cssSelectorBuilder.pseudoClass, cssSelectorBuilder.pseudoElement,
        SimpleSelector.id, SimpleSelector.«class», SimpleSelector.attr,
        SimpleSelector.pseudoClass, SimpleSelector.pseudoElement,
        SimpleSelector.new, truthy] at hfc <;>
      simp at hfc <;> obtain ⟨h1, -⟩ := hfc <;> subst h1 <;> simp

/-- The six part categories in their fixed order. -/
inductive Category where
  | element
  | id
  | «class»
  | «attribute»
  | pseudoClass
  | pseudoElement
deriving DecidableEq

/-- Position of a category in the fixed order
element, id, class, attribute, pseudo-class, pseudo-element. -/
def Category.rank : Category → Nat
  | .element => 0
  | .id => 1
  | .«class» => 2
  | .«attribute» => 3
  | .pseudoClass => 4
  | .pseudoElement => 5

/-- Whether a category is populated on a selector, in the sense the source
tests it: truthiness for the three nullable string fields, array
non-emptiness for the two array fields. -/
def populated (s : SimpleSelector) : Category → Bool
  | .element => truthy s.el
  | .id => truthy s.elId
  | .«class» => !s.classes.isEmpty
  | .«attribute» => truthy s.«attribute»
  | .pseudoClass => !s.pseudoClassEl.isEmpty
  | .pseudoElement => !s.pseudoElementEl.isEmpty

/-- The category a chain call belongs to. -/
def BuildCall.category : BuildCall → Category
  | .element _ => .element
  | .id _ => .id
  | .«class» _ => .«class»
  | .attr _ => .«attribute»
  | .pseudoClass _ => .pseudoClass
  | .pseudoElement _ => .pseudoElement

/-- Claim C1: for every chain of add-part calls that respects the category
order and the singleton limits (formally: the chain runs without an error
and ends in the selector instance), stringify returns exactly the
concatenation stated by the specification, here `renderSpec`; and the
chain id("main").class("container").class("editable") stringifies to
"#main.container.editable". -/
theorem C1_stringify_concatenation :
    (∀ (c : BuildCall) (cs : List BuildCall) (s : SimpleSelector),
        runChain c cs = .ok (.inl s) → s.stringify = renderSpec s) ∧
    runChain (.id "main") [.«class» "container", .«class» "editable"]
        = .ok (.inl (SimpleSelector.mk none (some "main") ["container", "editable"] none [] [])) ∧
    (SimpleSelector.mk none (some "main") ["container", "editable"] none [] []).stringify
        = "#main.container.editable" :=
  ⟨fun _ _ s h => stringify_eq_renderSpec s (runChain_pe_length h), by rfl, by rfl⟩

/-- Witness for C1: the chain element("a").attr(..).pseudoClass("focus")
runs without error and its final state renders per the specification. -/
theorem C1_stringify_concatenation_witness :
    SimpleSelector.stringify
        (SimpleSelector.mk (some "a") none [] (some "href$=\".png\"") ["focus"] [])
      = renderSpec
        (SimpleSelector.mk (some "a") none [] (some "href$=\".png\"") ["focus"] []) :=
  C1_stringify_concatenation.1 (.element "a")
    [.attr "href$=\".png\"", .pseudoClass "focus"] _ (by rfl)

/-- Claim C2 (code bug in the source): on a fresh instance,
SimpleSelector.element("a") succeeds but returns the raw string "a"
(`return el`), not the selector instance (`return this`), so the chain
cannot be continued after it — contrary to the claim and to the intent the
specification records. -/
theorem C2_element_returns_raw_name :
    SimpleSelector.new.element "a"
      = .ok (SimpleSelector.mk (some "a") none [] none [] [], ChainRet.raw "a") ∧
    ChainRet.raw "a" ≠ ChainRet.sel :=
  ⟨by rfl, by decide⟩

/-- Counterexample to claim C3: with attributeExpr already set to "flex", a
second attr("grid") does not fail with a DuplicateError: it succeeds and
silently overwrites the field. -/
theorem C3_attr_duplicate_counterexample :
    (SimpleSelector.mk none none [] (some "flex") [] []).attr "grid"
      = .ok (SimpleSelector.mk none none [] (some "grid") [] [], ChainRet.sel) := by
  rfl

/-- Claim C3 (amended): calling attr(expr) on a simple selector whose
attributeExpr is already set, with no pseudo-class or pseudo-element
populated, does not fail; the call overwrites the stored expression and
returns the instance. Only element, id and pseudo-element are
duplicate-checked. -/
theorem C3_attr_overwrites :
    ∀ (s : SimpleSelector) (v : String),
      truthy s.«attribute» = true → s.pseudoClassEl = [] → s.pseudoElementEl = [] →
      s.attr v = .ok ({ s with «attribute» := some v }, .sel) := by
  intro s v _ h1 h2
  simp [SimpleSelector.attr, h1, h2]

/-- Witness for the amended C3 at a concrete selector. -/
theorem C3_attr_overwrites_witness :
    (SimpleSelector.mk none none [] (some "wrap") [] []).attr "nowrap"
      = .ok (SimpleSelector.mk none none [] (some "nowrap") [] [], ChainRet.sel) :=
  C3_attr_overwrites _ "nowrap" (by decide) rfl rfl

/-- Claim C4: any add-part call whose category strictly precedes a
populated category fails with the OrderError, whose message is exactly the
order message of the source, and the carried state is unchanged. -/
theorem C4_order_error :
    ∀ (s : SimpleSelector) (c : BuildCall) (cat : Category),
      populated s cat = true → c.category.rank < cat.rank →
      s.applyCall c = .error (.error orderMsg, s) := by
  intro s c cat hpop hlt
  cases c <;> cases cat <;>
    first
      | (simp only [BuildCall.category, Category.rank] at hlt; omega)
      | (simp only [populated] at hpop
         simp [SimpleSelector.applyCall, SimpleSelector.element, SimpleSelector.id,
           SimpleSelector.«class», SimpleSelector.attr, SimpleSelector.pseudoClass,
           hpop])

/-- Witness for C4: class("x") after attr("flex") raises the OrderError
with the exact message. -/
theorem C4_order_error_witness :
    (SimpleSelector.mk none none [] (some "flex") [] []).applyCall (.«class» "x")
      = .error (.error orderMsg, SimpleSelector.mk none none [] (some "flex") [] []) :=
  C4_order_error _ (.«class» "x") .«attribute» (by rfl) (by decide)

/-- Counterexample to claim C5: the duplicate message the source throws
spells "more then one time", not "more than one time" as claimed; and when
a later category is populated, a second id() raises the OrderError, not
the DuplicateError. -/
theorem C5_duplicate_message_counterexample :
    (SimpleSelector.mk none (some "main") [] none [] []).id "other"
        = .error (.error dupMsg, SimpleSelector.mk none (some "main") [] none [] []) ∧
    dupMsg ≠ "Element, id and pseudo-element should not occur more than one time inside the selector" ∧
    (SimpleSelector.mk none (some "main") ["container"] none [] []).id "other"
        = .error (.error orderMsg, SimpleSelector.mk none (some "main") ["container"] none [] []) :=
  ⟨by rfl, by decide, by rfl⟩

/-- Claim C5 (amended): a second id() with idName already set and no later
category populated fails with the DuplicateError whose message is exactly
"Element, id and pseudo-element should not occur more then one time inside
the selector" (source spelling, "then"); the same message is raised when
elementName is set twice (again with no later category populated, since
the order check runs first) and whenever pseudoElementName is set twice. -/
theorem C5_duplicate_error :
    (∀ (s : SimpleSelector) (v : String),
        truthy s.elId = true → populated s .«class» = false →
        populated s .«attribute» = false → populated s .pseudoClass = false →
        populated s .pseudoElement = false →
        s.id v = .error (.error dupMsg, s)) ∧
    (∀ (s : SimpleSelector) (v : String),
        truthy s.el = true → populated s .id = false → populated s .«class» = false →
        populated s .«attribute» = false → populated s .pseudoClass = false →
        populated s .pseudoElement = false →
        s.element v = .error (.error dupMsg, s)) ∧
    (∀ (s : SimpleSelector) (v : String),
        populated s .pseudoElement = true →
        s.pseudoElement v = .error (.error dupMsg, s)) ∧
    dupMsg = "Element, id and pseudo-element should not occur more then one time inside the selector" := by
  refine ⟨?_, ?_, ?_, rfl⟩
  · intro s v h0 h1 h2 h3 h4
    simp only [populated] at h1 h2 h3 h4
    simp [SimpleSelector.id, h0, h1, h2, h3, h4]
  · intro s v h0 h1 h2 h3 h4 h5
    simp only [populated] at h1 h2 h3 h4 h5
    simp [SimpleSelector.element, h0, h1, h2, h3, h4, h5]
  · intro s v h0
    simp only [populated] at h0
    simp [SimpleSelector.pseudoElement, h0]

/-- Witness for the amended C5: a concrete second id() and a concrete
second pseudoElement() both raise the DuplicateError. -/
theorem C5_duplicate_error_witness :
    (SimpleSelector.mk none (some "app") [] none [] []).id "nav"
        = .error (.error dupMsg, SimpleSelector.mk none (some "app") [] none [] []) ∧
    (SimpleSelector.mk none none [] none [] ["before"]).pseudoElement "after"
        = .error (.error dupMsg, SimpleSelector.mk none none [] none [] ["before"]) :=
  ⟨C5_duplicate_error.1 _ "nav" (by rfl) rfl rfl rfl rfl,
   C5_duplicate_error.2.2.1 _ "after" (by rfl)⟩

/-- Claim C6: combine(a, c, b).stringify() is
a.stringify() space c space b.stringify() with the combinator passed
through verbatim, and nesting a space combinator reproduces the
three-space artifact literally. -/
theorem C6_combine_stringify :
    (∀ (a b : Selector) (c : String),
        (cssSelectorBuilder.combine a c b).stringify
          = a.stringify ++ " " ++ c ++ " " ++ b.stringify) ∧
    (∀ (x y z : Selector),
        (cssSelectorBuilder.combine x "~" (cssSelectorBuilder.combine y " " z)).stringify
          = x.stringify ++ " ~ " ++ y.stringify ++ "   " ++ z.stringify) := by
  constructor
  · intro a b c
    rfl
  · intro x y z
    show x.stringify ++ " " ++ "~" ++ " " ++ (y.stringify ++ " " ++ " " ++ " " ++ z.stringify)
        = x.stringify ++ " ~ " ++ y.stringify ++ "   " ++ z.stringify
    simp only [String.append_assoc]
    rfl

/-- The `Rectangle` constructor: `this.width = width; this.height = height`.
JavaScript numbers are modelled as rationals; the claims about Rectangle
use only arithmetic that is exact in both. -/
structure Rectangle where
  width : ℚ
  height : ℚ
deriving DecidableEq

/-- Models `Rectangle.prototype.getArea`: `this.width * this.height`. -/
def Rectangle.getArea (self : Rectangle) : ℚ :=
  self.width * self.height

/-- Claim C7: a Rectangle holds the two numbers it is built from and its
area method returns their product; Rectangle(10, 20) has area 200. The
specification calls the method area(); the source names it getArea(). -/
theorem C7_rectangle_area :
    (∀ w h : ℚ, (Rectangle.mk w h).width = w ∧ (Rectangle.mk w h).height = h ∧
        (Rectangle.mk w h).getArea = w * h) ∧
    (Rectangle.mk 10 20).getArea = (200 : ℚ) :=
  ⟨fun _ _ => ⟨rfl, rfl, rfl⟩, by norm_num [Rectangle.getArea]⟩

/-- Claim C9: every add-part method is atomic — when it throws, the state
it throws in is the unmodified input state, so stringify is unchanged. -/
theorem C9_add_atomic :
    ∀ (s : SimpleSelector) (c : BuildCall) (e : JSError) (s' : SimpleSelector),
      s.applyCall c = .error (e, s') → s' = s ∧ s'.stringify = s.stringify := by
  intro s c e s' h
  cases c <;>
    simp only [SimpleSelector.applyCall, SimpleSelector.element, SimpleSelector.id,
      SimpleSelector.«class», SimpleSelector.attr, SimpleSelector.pseudoClass,
      SimpleSelector.pseudoElement] at h <;>
    (repeat' split at h) <;>
    simp only [Except.error.injEq, Prod.mk.injEq, reduceCtorEq] at h <;>
    (obtain ⟨-, h2⟩ := h
     subst h2
     exact ⟨rfl, rfl⟩)

/-- Witness for C9: a duplicate id() error leaves the selector unchanged. -/
theorem C9_add_atomic_witness :
    SimpleSelector.mk none (some "menu") [] none [] []
        = SimpleSelector.mk none (some "menu") [] none [] [] ∧
    (SimpleSelector.mk none (some "menu") [] none [] []).stringify
        = (SimpleSelector.mk none (some "menu") [] none [] []).stringify :=
  C9_add_atomic _ (.id "other") (.error dupMsg) _ (by rfl)

/-- Claim C10: a singleton field holding the empty string behaves as
absent: stringify emits nothing for it, and setting the same field again
does not raise the DuplicateError, because presence is tested by string
truthiness. -/
theorem C10_empty_string_absent :
    (∀ s : SimpleSelector, s.elId = some "" →
        s.stringify = { s with elId := none }.stringify) ∧
    (∀ s : SimpleSelector, s.el = some "" →
        s.stringify = { s with el := none }.stringify) ∧
    (∀ s : SimpleSelector, s.«attribute» = some "" →
        s.stringify = { s with «attribute» := none }.stringify) ∧
    (∀ (s : SimpleSelector) (v : String), s.elId = some "" → s.classes = [] →
        s.«attribute» = none → s.pseudoClassEl = [] → s.pseudoElementEl = [] →
        s.id v = .ok ({ s with elId := some v }, .sel)) ∧
    (∀ (s : SimpleSelector) (v : String), s.el = some "" → s.elId = none →
        s.classes = [] → s.«attribute» = none → s.pseudoClassEl = [] →
        s.pseudoElementEl = [] →
        s.element v = .ok ({ s with el := some v }, .raw v)) ∧
    (∀ (s : SimpleSelector) (v : String), s.«attribute» = some "" →
        s.pseudoClassEl = [] → s.pseudoElementEl = [] →
        s.attr v = .ok ({ s with «attribute» := some v }, .sel)) := by
  refine ⟨?_, ?_, ?_, ?_, ?_, ?_⟩
  · intro s h
    simp [SimpleSelector.stringify, h, truthy]
  · intro s h
    simp [SimpleSelector.stringify, h, truthy]
  · intro s h
    simp [SimpleSelector.stringify, h, truthy]
  · intro s v h0 h1 h2 h3 h4
    simp [SimpleSelector.id, h0, h1, h2, h3, h4, truthy]
  · intro s v h0 h1 h2 h3 h4 h5
    simp [SimpleSelector.element, h0, h1, h2, h3, h4, h5, truthy]
  · intro s v h0 h1 h2
    simp [SimpleSelector.attr, h0, h1, h2, truthy]

/-- Witness for C10: after id(""), stringify emits no id segment and a
subsequent id("main") succeeds. -/
theorem C10_empty_string_absent_witness :
    (SimpleSelector.mk none (some "") [] none [] []).stringify
        = (SimpleSelector.mk none none [] none [] []).stringify ∧
    (SimpleSelector.mk none (some "") [] none [] []).id "main"
        = .ok (SimpleSelector.mk none (some "main") [] none [] [], .sel) :=
  ⟨C10_empty_string_absent.1 _ rfl,
   C10_empty_string_absent.2.2.2.1 _ "main" rfl rfl rfl rfl rfl⟩

/-- A JSON value as produced by `JSON.parse`: null, booleans, numbers,
strings, arrays, and objects as ordered key-value lists. Numbers are
modelled as rationals — a JSON numeral denotes a decimal rational, and no
claim depends on the float rounding the engine applies afterwards. String
escapes of UTF-16 surrogate pairs are abstracted (see parseStringBody). -/
inductive JSVal where
  | null
  | bool (b : Bool)
  | num (q : ℚ)
  | str (s : String)
  | arr (elems : List JSVal)
  | obj (fields : List (String × JSVal))

/-- The four whitespace characters of the JSON grammar. -/
def isJsonWs (c : Char) : Bool :=
  c == ' ' || c == '\t' || c == '\n' || c == '\r'

/-- Drop leading JSON whitespace. -/
def skipWs : List Char → List Char
  | [] => []
  | c :: cs => if isJsonWs c then skipWs cs else c :: cs

/-- Value of one hexadecimal digit. -/
def hexVal (c : Char) : Option Nat :=
  if '0' ≤ c ∧ c ≤ '9' then some (c.toNat - 48)
  else if 'a' ≤ c ∧ c ≤ 'f' then some (c.toNat - 87)
  else if 'A' ≤ c ∧ c ≤ 'F' then some (c.toNat - 55)
  else none

/-- Four hexadecimal digits, as in a JSON unicode escape. -/
def parseHex4 : List Char → Option (Nat × List Char)
  | a :: b :: c :: d :: rest =>
    match hexVal a, hexVal b, hexVal c, hexVal d with
    | some ha, some hb, some hc, some hd =>
      some ((((ha * 16 + hb) * 16 + hc) * 16 + hd), rest)
    | _, _, _, _ => none
  | _ => none

/-- Body of a JSON string after the opening quote: any character except
the quote, the backslash and raw controls below U+0020, plus the nine
escapes of the JSON grammar. A unicode escape becomes the scalar value
`Char.ofNat` yields; pairing of UTF-16 surrogate escapes is abstracted
(no claim exercises them). -/
def parseStringBody : Nat → List Char → List Char → Option (String × List Char)
  | 0, _, _ => none
  | fuel + 1, acc, cs =>
    match cs with
    | [] => none
    | '"' :: rest => some (String.mk acc.reverse, rest)
    | '\\' :: esc :: rest =>
      match esc with
      | '"' => parseStringBody fuel ('"' :: acc) rest
      | '\\' => parseStringBody fuel ('\\' :: acc) rest
      | '/' => parseStringBody fuel ('/' :: acc) rest
      | 'b' => parseStringBody fuel ('\x08' :: acc) rest
      | 'f' => parseStringBody fuel ('\x0c' :: acc) rest
      | 'n' => parseStringBody fuel ('\n' :: acc) rest
      | 'r' => parseStringBody fuel ('\r' :: acc) rest
      | 't' => parseStringBody fuel ('\t' :: acc) rest
      | 'u' =>
        match parseHex4 rest with
        | some (n, rest2) => parseStringBody fuel (Char.ofNat n :: acc) rest2
        | none => none
      | _ => none
    | c :: rest =>
      if c.toNat < 32 then none else parseStringBody fuel (c :: acc) rest

/-- Decimal value of a digit list. -/
def digitsToNat (ds : List Char) : Nat :=
  ds.foldl (fun acc c => acc * 10 + (c.toNat - 48)) 0

/-- Split off a maximal run of decimal digits. -/
def takeDigits : List Char → List Char × List Char
  | [] => ([], [])
  | c :: cs =>
    if c.isDigit then
      let p := takeDigits cs
      (c :: p.1, p.2)
    else ([], c :: cs)

/-- Exponent digits after an optional sign; at least one digit required. -/
def parseExpDigits (sign : Int) (cs : List Char) : Option (Int × List Char) :=
  match takeDigits cs with
  | ([], _) => none
  | (ds, rest) => some (sign * (digitsToNat ds : Int), rest)

/-- Optional exponent part of a JSON number. -/
def parseExpPart : List Char → Option (Int × List Char)
  | 'e' :: '+' :: r => parseExpDigits 1 r
  | 'e' :: '-' :: r => parseExpDigits (-1) r
  | 'e' :: r => parseExpDigits 1 r
  | 'E' :: '+' :: r => parseExpDigits 1 r
  | 'E' :: '-' :: r => parseExpDigits (-1) r
  | 'E' :: r => parseExpDigits 1 r
  | cs => some (0, cs)

/-- The rational a JSON numeral denotes:
sign * (integerPart + fraction / 10 ^ fracDigits) * 10 ^ exponent, written
over a common denominator so that one `mkRat` builds the value. -/
def makeNumber (neg : Bool) (intDs fracDs : List Char) (exp : Int) : ℚ :=
  let fl := fracDs.length
  let mantissa : Int := (digitsToNat intDs * 10 ^ fl + digitsToNat fracDs : Nat)
  let mantissa : Int := if neg then -mantissa else mantissa
  match exp with
  | .ofNat e => mkRat (mantissa * ((10 ^ e : Nat) : Int)) (10 ^ fl)
  | .negSucc e => mkRat mantissa (10 ^ fl * 10 ^ (e + 1))

/-- A JSON numeric literal: optional minus, an integer part that is `0` or
starts with a nonzero digit, an optional fraction with at least one digit,
an optional exponent with at least one digit. A `0` followed by more
digits parses as the literal `0` with the digits left over, which every
caller then rejects — matching the leading-zero rejection of the grammar. -/
def parseNumber (cs : List Char) : Option (ℚ × List Char) :=
  let p :=
    match cs with
    | '-' :: r => (true, r)
    | _ => (false, cs)
  match p.2 with
  | [] => none
  | c :: _ =>
    if !c.isDigit then none
    else
      let q := if c == '0' then (['0'], p.2.tail) else takeDigits p.2
      match q.2 with
      | '.' :: r =>
        match takeDigits r with
        | ([], _) => none
        | (fracDs, rest2) =>
          match parseExpPart rest2 with
          | none => none
          | some (exp, rest3) => some (makeNumber p.1 q.1 fracDs exp, rest3)
      | _ =>
        match parseExpPart q.2 with
        | none => none
        | some (exp, rest3) => some (makeNumber p.1 q.1 [] exp, rest3)

/-- Store a member into an object under construction, as the JavaScript
object literal semantics of `JSON.parse` does: a repeated key keeps its
first position but takes the last value. -/
def setMember (fields : List (String × JSVal)) (k : String) (v : JSVal) :
    List (String × JSVal) :=
  if fields.any (fun kv => kv.1 == k) then
    fields.map (fun kv => if kv.1 == k then (k, v) else kv)
  else fields ++ [(k, v)]

mutual

/-- One JSON value: a literal name, string, array, object, or number,
after leading whitespace. The fuel only bounds the recursion depth. -/
def parseValue : Nat → List Char → Option (JSVal × List Char)
  | 0, _ => none
  | fuel + 1, cs =>
    match skipWs cs with
    | 'n' :: 'u' :: 'l' :: 'l' :: rest => some (.null, rest)
    | 't' :: 'r' :: 'u' :: 'e' :: rest => some (.bool true, rest)
    | 'f' :: 'a' :: 'l' :: 's' :: 'e' :: rest => some (.bool false, rest)
    | '"' :: rest =>
      match parseStringBody (rest.length + 1) [] rest with
      | some (s, rest2) => some (.str s, rest2)
      | none => none
    | '[' :: rest =>
      match skipWs rest with
      | ']' :: rest2 => some (.arr [], rest2)
      | rest2 => parseElements fuel rest2 []
    | '\x7b' :: rest =>
      match skipWs rest with
      | '\x7d' :: rest2 => some (.obj [], rest2)
      | rest2 => parseMembers fuel rest2 []
    | cs2 => (parseNumber cs2).map fun pr => (.num pr.1, pr.2)

/-- Comma-separated elements of a non-empty array, up to the closing
bracket. -/
def parseElements : Nat → List Char → List JSVal → Option (JSVal × List Char)
  | 0, _, _ => none
  | fuel + 1, cs, acc =>
    match parseValue fuel cs with
    | none => none
    | some (v, rest) =>
      match skipWs rest with
      | ',' :: rest2 => parseElements fuel rest2 (acc ++ [v])
      | ']' :: rest2 => some (.arr (acc ++ [v]), rest2)
      | _ => none

/-- Comma-separated members of a non-empty object, up to the closing
brace: quoted key, colon, value. -/
def parseMembers : Nat → List Char → List (String × JSVal) →
    Option (JSVal × List Char)
  | 0, _, _ => none
  | fuel + 1, cs, acc =>
    match skipWs cs with
    | '"' :: rest =>
      match parseStringBody (rest.length + 1) [] rest with
      | none => none
      | some (key, rest1) =>
        match skipWs rest1 with
        | ':' :: rest2 =>
          match parseValue fuel rest2 with
          | none => none
          | some (v, rest3) =>
            match skipWs rest3 with
            | ',' :: rest4 => parseMembers fuel rest4 (setMember acc key v)
            | '\x7d' :: rest4 => some (.obj (setMember acc key v), rest4)
            | _ => none
        | _ => none
    | _ => none

end

/-- Models the ECMAScript built-in `JSON.parse` (no reviver argument in
the source): parse one JSON text per the ECMA-404 grammar and reject
trailing non-whitespace; a rejected text is the SyntaxError. The fuel
2*length+4 dominates the recursion depth, which grows by at most two per
consumed character, so it never cuts off a valid input. -/
def JSONparse (text : String) : Except String JSVal :=
  match parseValue (2 * text.length + 4) text.data with
  | none => .error "Unexpected token in JSON"
  | some (v, rest) =>
    if (skipWs rest).isEmpty then .ok v
    else .error "Unexpected non-whitespace character after JSON data"

/-- A value after `fromJSON`: `Object.setPrototypeOf` leaves a primitive
as it is (`plain`), and re-tags an object or array with the supplied
prototype (`tagged`), through which its behavior set is then looked up. -/
inductive Tagged (π : Type) where
  | plain (v : JSVal)
  | tagged (v : JSVal) (proto : π)

/-- Models the ECMAScript built-in `Object.setPrototypeOf(O, proto)`:
a TypeError when `O` is null (or undefined, which `JSON.parse` never
yields); `O` returned unchanged when it is not an object; otherwise the
object with its prototype replaced. The prototype is an arbitrary type
parameter, as any object may serve as one. -/
def setPrototypeOf {π : Type} (v : JSVal) (proto : π) : Except JSError (Tagged π) :=
  match v with
  | .null => .error (.typeError "Object.setPrototypeOf called on null or undefined")
  | .obj fields => .ok (.tagged (.obj fields) proto)
  | .arr elems => .ok (.tagged (.arr elems) proto)
  | prim => .ok (.plain prim)

/-- The source function `fromJSON(proto, json)`: `JSON.parse(json)` — a parse failure is the
SyntaxError, the ParseError of the taxonomy — then
`Object.setPrototypeOf(res, proto)` and return the result. -/
def fromJSON {π : Type} (proto : π) (json : String) : Except JSError (Tagged π) :=
  match JSONparse json with
  | .error msg => .error (.parseError msg)
  | .ok res => setPrototypeOf res proto

/-- Whether a text is well-formed JSON, that is, `JSON.parse` accepts it. -/
def wellFormedJSON (text : String) : Bool :=
  match JSONparse text with
  | .ok _ => true
  | .error _ => false

/-- Claim C8 exactly as stated: fromJSON fails with a ParseError if and
only if the text is not well-formed JSON, and on every well-formed text it
returns the parsed value tagged with the supplied prototype. -/
def C8Claimed (π : Type) (p : π) (text : String) : Prop :=
  ((∃ msg, fromJSON p text = .error (.parseError msg)) ↔ wellFormedJSON text = false) ∧
  (wellFormedJSON text = true →
    ∃ v, JSONparse text = .ok v ∧ fromJSON p text = .ok (.tagged v p))

/-- Counterexample to claim C8: the well-formed text "null" makes fromJSON
throw a TypeError instead of returning a value, and the well-formed text
"true" returns the primitive untagged, without the prototype behaviors. -/
theorem C8_fromJSON_counterexample :
    ¬ C8Claimed Unit () "null" ∧ ¬ C8Claimed Unit () "true" := by
  constructor
  · intro h
    obtain ⟨v, -, hok⟩ := h.2 (by rfl)
    have hev : fromJSON () "null"
        = Except.error (JSError.typeError
            "Object.setPrototypeOf called on null or undefined") := by rfl
    rw [hev] at hok
    exact Except.noConfusion hok
  · intro h
    obtain ⟨v, -, hok⟩ := h.2 (by rfl)
    have hev : fromJSON () "true" = .ok (Tagged.plain (JSVal.bool true)) := by rfl
    rw [hev] at hok
    simp only [Except.ok.injEq] at hok
    exact Tagged.noConfusion hok

/-- Claim C8 (amended): fromJSON fails with a ParseError exactly on texts
`JSON.parse` rejects; on a well-formed text parsing to an object or array
it returns the value tagged with the prototype; on a well-formed text
parsing to a boolean, number or string it returns the primitive unchanged
and untagged; and on a text parsing to null it fails with a TypeError,
since `Object.setPrototypeOf` rejects null. -/
def fromJSONSpec (π : Type) (p : π) (text : String) : Prop :=
  match JSONparse text with
  | .error msg => fromJSON p text = .error (.parseError msg)
  | .ok .null => fromJSON p text
      = .error (.typeError "Object.setPrototypeOf called on null or undefined")
  | .ok (.obj fields) => fromJSON p text = .ok (.tagged (.obj fields) p)
  | .ok (.arr elems) => fromJSON p text = .ok (.tagged (.arr elems) p)
  | .ok v => fromJSON p text = .ok (.plain v)

/-- The amended claim C8, proved for every prototype and every text,
together with the concrete example of the claim: the parsed width/height
object comes back tagged with the supplied prototype. -/
theorem C8_fromJSON_behavior :
    (∀ (π : Type) (p : π) (text : String), fromJSONSpec π p text) ∧
    fromJSON () "\x7b\"width\":10,\"height\":20\x7d"
      = .ok (.tagged (.obj [("width", .num 10), ("height", .num 20)]) ()) := by
  constructor
  · intro π p text
    unfold fromJSONSpec
    cases h : JSONparse text with
    | error msg => simp [fromJSON, h]
    | ok v => cases v <;> simp [fromJSON, h, setPrototypeOf]
  · rfl
